import Mathlib

set_option maxRecDepth 8000

/-
Verification of the cc-utils pipeline-replication and webhook-dispatch engine.

The definitions below are a shallow embedding of the Python sources:
  * `CcUtils.Replicator`  — src/concourse/replicator.py
  * `CcUtils.Whd`         — src/whd/pull_request.py
  * `CcUtils.Oci`         — src/oci/__init__.py
  * `CcUtils.Cnudie`      — src/cnudie/retrieve.py
External I/O (HTTP calls, logging, sleeping, blob transfers) is modelled as
emitted call traces or as oracle parameters; machine-level details that do
not affect the verified properties (timing, logging text) are elided.
-/

namespace CcUtils

namespace Replicator

/-- DeployStatus is an IntEnum used as a bit-field in the source
(`class DeployStatus(IntEnum)`); a deploy status is a Nat that ORs these bits. -/
def DeployStatus.SUCCEEDED : Nat := 1

def DeployStatus.FAILED : Nat := 2

def DeployStatus.SKIPPED : Nat := 4

def DeployStatus.CREATED : Nat := 8

/-- Exception classes of the Python standard library that may be captured on a
definition-descriptor (`DefinitionDescriptor.exception`); mirrors the classes
relevant to `should_notify_pipeline_owners`.  Exact classes, since the source
tests `type(e) in ignore_exceptions` (no subclass matching). -/
inductive PyExnClass where
  | arithmeticErr
  | attributeErr
  | bufferErr
  | eofErr
  | importErr
  | memoryErr
  | nameErr
  | osErr
  | referenceErr
  | recursionErr
  | stxErr
  | typeErr
  | valueErr
  | runtimeErr
deriving DecidableEq

/-- Model of `DeployResult` (src/concourse/replicator.py:253-267).  The
`definition_descriptor` field is flattened to the attributes the result
processor reads: `pipeline_name` and the descriptor's captured `exception`
(modelled by its class). -/
structure DeployResult where
  pipeline_name : String
  deploy_status : Nat
  error_details : Option String := none
  descriptor_exception : Option PyExnClass := none
deriving DecidableEq

/-- The `failed_descriptors` computed by
`ReplicationResultProcessor.process_results` (replicator.py:427-430):
every result whose status lacks the SUCCEEDED bit
(`not d.deploy_status & DeployStatus.SUCCEEDED`). -/
def failed_descriptors (results : List DeployResult) : List DeployResult :=
  results.filter (fun d => d.deploy_status &&& DeployStatus.SUCCEEDED == 0)

/-- replicator.py:433-437: `self.remove_pipelines` is forced to `False` as soon
as `failed_count > 0`. -/
def remove_pipelines_after_failures (remove_pipelines : Bool)
    (results : List DeployResult) : Bool :=
  if 0 < (failed_descriptors results).length then false else remove_pipelines

/-- replicator.py:450-464: orphaned pipelines on one backend
(`existing − just_deployed`), minus the names protected by
`remove_pipelines_filter` (a name the filter matches is kept). -/
def pipelines_to_remove (existing : List String) (deployed : List String)
    (filt : Option (String → Bool)) : List String :=
  let to_remove := existing.filter (fun p => ¬ p ∈ deployed)
  match filt with
  | none => to_remove
  | some f => to_remove.filter (fun n => ¬ f n)

/-- The pipelines `process_results` deletes on one concourse target
(replicator.py:450-468): the gate uses the failure count over all results of
the run, the orphan set uses the results grouped on that target. -/
def deleted_pipelines (remove_pipelines : Bool) (filt : Option (String → Bool))
    (all_results target_results : List DeployResult)
    (existing : List String) : List String :=
  if remove_pipelines_after_failures remove_pipelines all_results then
    pipelines_to_remove existing (target_results.map (·.pipeline_name)) filt
  else
    []

/-- Replication run used as counterexample to claim C1: a run whose only
non-SUCCEEDED result is a duplicate-name SKIPPED. -/
def c1_results : List DeployResult :=
  [ ⟨"a", DeployStatus.SUCCEEDED, none, none⟩,
    ⟨"a", DeployStatus.SKIPPED, some "duplicate pipeline name: a", none⟩ ]

/-- Claim C1, counterexample: in a run whose only non-SUCCEEDED result is a
duplicate-name SKIPPED, the claim asserts orphaned pipelines are still removed.
The code disagrees: `failed_descriptors` counts the SKIPPED result (its status
lacks the SUCCEEDED bit), cleanup is suppressed, and the orphan "orphan" —
which would be removed were cleanup not gated — is not deleted. -/
theorem c1_counterexample :
    failed_descriptors c1_results =
      [⟨"a", DeployStatus.SKIPPED, some "duplicate pipeline name: a", none⟩] ∧
    "orphan" ∈ pipelines_to_remove ["a", "orphan"]
      (c1_results.map (·.pipeline_name)) none ∧
    deleted_pipelines true none c1_results c1_results ["a", "orphan"] = [] := by
  decide

/-- Claim C1 (amended): if a replication run contains any result without the
SUCCEEDED status bit — a FAILED result or a SKIPPED one, duplicate-name SKIPs
included — then no pipeline is deleted from any backend during cleanup. -/
theorem c1_amended (remove : Bool) (filt : Option (String → Bool))
    (all_results target_results : List DeployResult) (existing : List String)
    (r : DeployResult) (hr : r ∈ all_results)
    (hf : r.deploy_status &&& DeployStatus.SUCCEEDED = 0) :
    deleted_pipelines remove filt all_results target_results existing = [] := by
  have hmem : r ∈ failed_descriptors all_results := by
    simp only [failed_descriptors, List.mem_filter]
    exact ⟨hr, by simp [hf]⟩
  have hlen : 0 < (failed_descriptors all_results).length :=
    List.length_pos_of_mem hmem
  simp [deleted_pipelines, remove_pipelines_after_failures, hlen]

/-- Witness for `c1_amended` at a concrete run. -/
theorem c1_amended_witness :
    deleted_pipelines true none c1_results c1_results ["a", "orphan"] = [] :=
  c1_amended true none c1_results c1_results ["a", "orphan"]
    ⟨"a", DeployStatus.SKIPPED, some "duplicate pipeline name: a", none⟩
    (by decide) (by decide)

/-- `concourse.client.model.SetPipelineResult`: the tag returned by
`set_pipeline`. -/
inductive SetPipelineResult where
  | CREATED
  | UPDATED
deriving DecidableEq

/-- Outcome of one `api.set_pipeline` invocation, as observed by
`ConcourseDeployer.deploy`: a result tag, an `HTTPError` carrying the
response's status code and body, or some other exception. -/
inductive SetPipelineOutcome where
  | ok (result : SetPipelineResult)
  | httpError (status_code : Nat) (content : String)
  | otherError
deriving DecidableEq

/-- Calls the deployer and the result processor emit against the concourse
client (plus `time.sleep`). -/
inductive ConcourseCall where
  | set_pipeline
  | sleep (seconds : Nat)
  | unpause_pipeline
  | expose_pipeline
  | trigger_resource_check (resource : String)
deriving DecidableEq

/-- Configuration flags of `ConcourseDeployer.__init__`
(replicator.py:304-315). -/
structure DeployerCfg where
  unpause_pipelines : Bool
  unpause_new_pipelines : Bool
  expose_pipelines : Bool
deriving DecidableEq

/-- The exact response body identifying the known concurrent-save race
(replicator.py:339-341). -/
def err_content : String :=
  "failed to save config: comparison with existing config failed during save"

/-- `random.randrange(5,30)` (replicator.py:343): a pseudo-random integer
drawn uniformly from [5,30); `rand` is the randomness source. -/
def randrange_5_30 (rand : Nat) : Nat := 5 + rand % 25

/-- replicator.py:356-373: the tail of a successful `deploy` — unpause when
configured (always, or for new pipelines when the response is CREATED),
expose when configured, and compose the status bit-field. -/
def deploy_success_tail (cfg : DeployerCfg) (response : SetPipelineResult) :
    List ConcourseCall × Nat :=
  let unpause_calls :=
    if cfg.unpause_pipelines then [ConcourseCall.unpause_pipeline]
    else if cfg.unpause_new_pipelines ∧ response = SetPipelineResult.CREATED then
      [ConcourseCall.unpause_pipeline]
    else []
  let expose_calls :=
    if cfg.expose_pipelines then [ConcourseCall.expose_pipeline] else []
  let status :=
    if response = SetPipelineResult.CREATED then
      DeployStatus.SUCCEEDED ||| DeployStatus.CREATED
    else
      DeployStatus.SUCCEEDED
  (unpause_calls ++ expose_calls, status)

/-- `ConcourseDeployer.deploy` (replicator.py:317-387): emitted call trace,
deploy status and error details.  `first` and `second` are the outcomes of the
first and (when reached) second `set_pipeline` call; the outer `except`
converts any escaped exception into a FAILED result whose error details carry
the formatted stack trace (modelled as `"stacktrace"`). -/
def ConcourseDeployer.deploy (cfg : DeployerCfg)
    (first second : SetPipelineOutcome) (rand : Nat) :
    List ConcourseCall × Nat × Option String :=
  match first with
  | .ok r =>
      let (calls, status) := deploy_success_tail cfg r
      (ConcourseCall.set_pipeline :: calls, status, none)
  | .httpError status_code content =>
      if status_code = 500 ∧ content = err_content then
        match second with
        | .ok r =>
            let (calls, status) := deploy_success_tail cfg r
            ([ConcourseCall.set_pipeline,
              ConcourseCall.sleep (randrange_5_30 rand),
              ConcourseCall.set_pipeline] ++ calls, status, none)
        | _ =>
            ([ConcourseCall.set_pipeline,
              ConcourseCall.sleep (randrange_5_30 rand),
              ConcourseCall.set_pipeline],
             DeployStatus.FAILED, some "stacktrace")
      else
        ([ConcourseCall.set_pipeline], DeployStatus.FAILED, some "stacktrace")
  | .otherError =>
      ([ConcourseCall.set_pipeline], DeployStatus.FAILED, some "stacktrace")

/-- `ReplicationResultProcessor._initialise_new_pipeline_resources`
(replicator.py:602-624): for every result with the CREATED bit, unpause it
when `unpause_new_pipelines` is set, then trigger a resource check on each of
its resources (`resources_of` lists a pipeline's resources). -/
def initialise_new_pipeline_resources (unpause_new_pipelines : Bool)
    (results : List DeployResult) (resources_of : String → List String) :
    List (String × ConcourseCall) :=
  (results.filter (fun r => r.deploy_status &&& DeployStatus.CREATED != 0)).flatMap
    (fun r =>
      (if unpause_new_pipelines then [(r.pipeline_name, ConcourseCall.unpause_pipeline)]
       else []) ++
      (resources_of r.pipeline_name).map
        (fun res => (r.pipeline_name, ConcourseCall.trigger_resource_check res)))

/-- Whether a pipeline deployed via `replicate_pipelines` ends up unpaused:
either `ConcourseDeployer.deploy` unpaused it, or
`_initialise_new_pipeline_resources` (wired to the same
`unpause_new_pipelines` flag, replicator.py:85-97) unpaused it afterwards. -/
def pipeline_unpaused (cfg : DeployerCfg) (first second : SetPipelineOutcome)
    (rand : Nat) (resources_of : String → List String) (name : String) : Prop :=
  ConcourseCall.unpause_pipeline ∈
      (ConcourseDeployer.deploy cfg first second rand).1 ∨
    (name, ConcourseCall.unpause_pipeline) ∈
      initialise_new_pipeline_resources cfg.unpause_new_pipelines
        [⟨name, (ConcourseDeployer.deploy cfg first second rand).2.1,
          (ConcourseDeployer.deploy cfg first second rand).2.2, none⟩]
        resources_of

/-- The deployer's success tail for a CREATED response contains an unpause
call exactly when one of the two unpause flags is set. -/
theorem unpause_mem_tail (cfg : DeployerCfg) :
    ConcourseCall.unpause_pipeline ∈
        (deploy_success_tail cfg SetPipelineResult.CREATED).1 ↔
      (cfg.unpause_pipelines || cfg.unpause_new_pipelines) = true := by
  cases hu : cfg.unpause_pipelines <;> cases hn : cfg.unpause_new_pipelines <;>
    cases he : cfg.expose_pipelines <;>
      simp [deploy_success_tail, hu, hn, he]

/-- A deploy result carries the CREATED bit only out of a success path whose
`set_pipeline` response was CREATED; its call trace is then the one or the
two `set_pipeline` calls followed by the CREATED success tail, and its status
is SUCCEEDED|CREATED. -/
theorem deploy_created_shape (cfg : DeployerCfg)
    (first second : SetPipelineOutcome) (rand : Nat)
    (hc : (ConcourseDeployer.deploy cfg first second rand).2.1 &&&
      DeployStatus.CREATED ≠ 0) :
    ((ConcourseDeployer.deploy cfg first second rand).1 =
        ConcourseCall.set_pipeline ::
          (deploy_success_tail cfg SetPipelineResult.CREATED).1 ∨
      (ConcourseDeployer.deploy cfg first second rand).1 =
        [ConcourseCall.set_pipeline, ConcourseCall.sleep (randrange_5_30 rand),
          ConcourseCall.set_pipeline] ++
          (deploy_success_tail cfg SetPipelineResult.CREATED).1) ∧
    (ConcourseDeployer.deploy cfg first second rand).2.1 =
      DeployStatus.SUCCEEDED ||| DeployStatus.CREATED := by
  rcases first with r | ⟨code, content⟩ | _
  · rcases r with _ | _
    · exact ⟨Or.inl rfl, rfl⟩
    · exfalso
      apply hc
      simp [ConcourseDeployer.deploy, deploy_success_tail]
      decide
  · by_cases hrace : code = 500 ∧ content = err_content
    · rcases second with r | ⟨code₂, content₂⟩ | _
      · rcases r with _ | _
        · refine ⟨Or.inr ?_, ?_⟩ <;>
            simp [ConcourseDeployer.deploy, hrace, deploy_success_tail]
        · exfalso
          apply hc
          simp [ConcourseDeployer.deploy, hrace, deploy_success_tail]
          decide
      · exfalso
        apply hc
        simp [ConcourseDeployer.deploy, hrace, DeployStatus.FAILED]
        decide
      · exfalso
        apply hc
        simp [ConcourseDeployer.deploy, hrace, DeployStatus.FAILED]
        decide
    · exfalso
      apply hc
      simp [ConcourseDeployer.deploy, hrace, DeployStatus.FAILED]
      decide
  · exfalso
    apply hc
    simp [ConcourseDeployer.deploy, DeployStatus.FAILED]
    decide

/-- Membership of the unpause call in the result-processor trace over a single
result carrying the CREATED bit. -/
theorem mem_unpause_initialise (unpause_new : Bool) (name : String)
    (status : Nat) (err : Option String) (resources_of : String → List String)
    (hc : status &&& DeployStatus.CREATED ≠ 0) :
    ((name, ConcourseCall.unpause_pipeline) ∈
      initialise_new_pipeline_resources unpause_new [⟨name, status, err, none⟩]
        resources_of) ↔ unpause_new = true := by
  have hfilter :
      List.filter (fun r => r.deploy_status &&& DeployStatus.CREATED != 0)
        [(⟨name, status, err, none⟩ : DeployResult)] =
        [⟨name, status, err, none⟩] := by
    have h2 : (status &&& DeployStatus.CREATED != 0) = true := by
      simpa [bne_iff_ne] using hc
    simp [List.filter, h2]
  rw [initialise_new_pipeline_resources, hfilter]
  cases unpause_new <;> simp

/-- Claim C3, counterexample: with `unpause_pipelines = true` and
`unpause_new_pipelines = false`, a deploy whose result carries the CREATED bit
still unpauses the pipeline (replicator.py:357-359 unpauses whenever
`unpause_pipelines` is set), contradicting "unpaused exactly when
`unpause_new_pipelines` is true, regardless of `unpause_pipelines`". -/
theorem c3_counterexample :
    (ConcourseDeployer.deploy ⟨true, false, false⟩ (.ok .CREATED) (.ok .UPDATED)
        0).2.1 &&& DeployStatus.CREATED ≠ 0 ∧
    pipeline_unpaused ⟨true, false, false⟩ (.ok .CREATED) (.ok .UPDATED) 0
      (fun _ => []) "p" ∧
    (⟨true, false, false⟩ : DeployerCfg).unpause_new_pipelines = false := by
  refine ⟨by decide, Or.inl ?_, rfl⟩
  simp [ConcourseDeployer.deploy, deploy_success_tail]

/-- Claim C3 (amended): a pipeline whose deploy produced the CREATED bit is
unpaused exactly when `unpause_pipelines ∨ unpause_new_pipelines` holds — the
deployer unpauses whenever `unpause_pipelines` is set (also when
`unpause_new_pipelines` is set and the response was CREATED), and the result
processor additionally unpauses CREATED pipelines exactly when
`unpause_new_pipelines` is set; so `unpause_pipelines` is not irrelevant. -/
theorem c3_amended (cfg : DeployerCfg) (first second : SetPipelineOutcome)
    (rand : Nat) (resources_of : String → List String) (name : String)
    (hcreated : (ConcourseDeployer.deploy cfg first second rand).2.1 &&&
      DeployStatus.CREATED ≠ 0) :
    pipeline_unpaused cfg first second rand resources_of name ↔
      (cfg.unpause_pipelines || cfg.unpause_new_pipelines) = true := by
  obtain ⟨hcalls, hstatus⟩ := deploy_created_shape cfg first second rand hcreated
  unfold pipeline_unpaused
  rw [hstatus, mem_unpause_initialise cfg.unpause_new_pipelines name _ _
    resources_of (by decide)]
  rcases hcalls with h | h <;> rw [h]
  · rw [List.mem_cons]
    rw [unpause_mem_tail cfg]
    cases hu : cfg.unpause_pipelines <;>
      cases hn : cfg.unpause_new_pipelines <;> simp [hu, hn]
  · rw [List.mem_append]
    rw [unpause_mem_tail cfg]
    cases hu : cfg.unpause_pipelines <;>
      cases hn : cfg.unpause_new_pipelines <;> simp [hu, hn]

/-- Witness for `c3_amended`: with both unpause flags off, a CREATED pipeline
is not unpaused. -/
theorem c3_amended_witness :
    ¬ pipeline_unpaused ⟨false, false, true⟩ (.ok .CREATED) (.ok .UPDATED) 0
        (fun _ => ["repo"]) "p" := by
  intro h
  have := (c3_amended ⟨false, false, true⟩ (.ok .CREATED) (.ok .UPDATED) 0
    (fun _ => ["repo"]) "p" (by decide)).mp h
  simp at this
/-- Model of `DefinitionDescriptor` (concourse/enumerator.py) as consumed by
`PipelineReplicator._process_definition_descriptor`: the (preprocessed)
pipeline name, an optional enumeration error, and oracles for the outcome of
rendering and of deploying this descriptor. -/
structure DefinitionDescriptor where
  pipeline_name : String
  exception : Option String := none
  render_succeeds : Bool := true
  render_error : String := "render stacktrace"
  deploy_result_status : Nat := DeployStatus.SUCCEEDED
  deploy_result_error : Option String := none
deriving DecidableEq

/-- One processed descriptor: the `DeployResult` produced and whether the
deployer was actually invoked. -/
structure ProcessOutcome where
  result : DeployResult
  deploy_called : Bool
deriving DecidableEq

/-- `PipelineReplicator._pipeline_name_conflict` (replicator.py:666-671):
under the mutex, report a conflict if the name was already accepted, else
insert it.  Check and insertion form one critical section, so the whole
operation is modelled as one atomic step on the accepted-name set. -/
def pipeline_name_conflict (names : List String) (pipeline_name : String) :
    Bool × List String :=
  if pipeline_name ∈ names then (true, names) else (false, pipeline_name :: names)

/-- `PipelineReplicator._process_definition_descriptor` (replicator.py:677-710)
threaded over the accepted-name set: an enumeration error short-circuits to
SKIPPED (without touching the name set); otherwise the descriptor is rendered,
the duplicate check runs (regardless of the render status), a conflict yields
the duplicate-SKIPPED result, and only then a successful render is deployed
while a failed render yields SKIPPED with the render error. -/
def process_definition_descriptor (names : List String)
    (d : DefinitionDescriptor) : ProcessOutcome × List String :=
  match d.exception with
  | some e => (⟨⟨d.pipeline_name, DeployStatus.SKIPPED, some e, none⟩, false⟩, names)
  | none =>
    let checked := pipeline_name_conflict names d.pipeline_name
    if checked.1 then
      (⟨⟨d.pipeline_name, DeployStatus.SKIPPED,
          some ("duplicate pipeline name: " ++ d.pipeline_name), none⟩, false⟩,
       checked.2)
    else if d.render_succeeds then
      (⟨⟨d.pipeline_name, d.deploy_result_status, d.deploy_result_error, none⟩,
          true⟩, checked.2)
    else
      (⟨⟨d.pipeline_name, DeployStatus.SKIPPED, some d.render_error, none⟩,
          false⟩, checked.2)

/-- `PipelineReplicator._replicate` (replicator.py:712-717) with the worker
pool linearised: since the only shared mutable state is the mutex-guarded
name set, every concurrent execution is equivalent to processing the
descriptors in some sequential order; this function processes them in the
given order, threading the accepted-name set. -/
def replicate_descriptors (names : List String) :
    List DefinitionDescriptor → List ProcessOutcome × List String
  | [] => ([], names)
  | d :: ds =>
    let step := process_definition_descriptor names d
    let rest := replicate_descriptors step.2 ds
    (step.1 :: rest.1, rest.2)

/-- A descriptor carrying an enumeration error is skipped without touching the
accepted-name set. -/
theorem exception_step (names : List String) (d : DefinitionDescriptor)
    (e : String) (he : d.exception = some e) :
    process_definition_descriptor names d =
      (⟨⟨d.pipeline_name, DeployStatus.SKIPPED, some e, none⟩, false⟩, names) := by
  simp [process_definition_descriptor, he]

/-- A descriptor processed while its name is already accepted yields the exact
duplicate-SKIPPED result and does not reach the deployer. -/
theorem duplicate_step (names : List String) (d : DefinitionDescriptor)
    (he : d.exception = none) (hc : d.pipeline_name ∈ names) :
    process_definition_descriptor names d =
      (⟨⟨d.pipeline_name, DeployStatus.SKIPPED,
          some ("duplicate pipeline name: " ++ d.pipeline_name), none⟩, false⟩,
        names) := by
  simp [process_definition_descriptor, he, pipeline_name_conflict, hc]

/-- A descriptor with a fresh name inserts it into the accepted-name set, and
the produced result carries the descriptor's pipeline name. -/
theorem fresh_step (names : List String) (d : DefinitionDescriptor)
    (he : d.exception = none) (hc : ¬ d.pipeline_name ∈ names) :
    (process_definition_descriptor names d).2 = d.pipeline_name :: names ∧
    (process_definition_descriptor names d).1.result.pipeline_name =
      d.pipeline_name := by
  cases hr : d.render_succeeds <;>
    simp [process_definition_descriptor, he, pipeline_name_conflict, hc, hr]

/-- The accepted-name set after a run contains exactly the initial names and
the names of the enumeration-error-free descriptors (render failures
included). -/
theorem replicate_descriptors_names (ds : List DefinitionDescriptor)
    (names : List String) (m : String) :
    m ∈ (replicate_descriptors names ds).2 ↔
      m ∈ names ∨ ∃ d ∈ ds, d.exception = none ∧ d.pipeline_name = m := by
  induction ds generalizing names with
  | nil => simp [replicate_descriptors]
  | cons d ds ih =>
    rw [replicate_descriptors]
    rcases he : d.exception with _ | e
    · by_cases hc : d.pipeline_name ∈ names
      · rw [duplicate_step names d he hc]
        rw [ih]
        constructor
        · rintro (h | ⟨d', hd', h1, h2⟩)
          · exact Or.inl h
          · exact Or.inr ⟨d', List.mem_cons_of_mem _ hd', h1, h2⟩
        · rintro (h | ⟨d', hd', h1, h2⟩)
          · exact Or.inl h
          · rcases List.mem_cons.mp hd' with rfl | hd'
            · exact Or.inl (h2 ▸ hc)
            · exact Or.inr ⟨d', hd', h1, h2⟩
      · rw [(fresh_step names d he hc).1, ih]
        constructor
        · rintro (h | ⟨d', hd', h1, h2⟩)
          · rcases List.mem_cons.mp h with rfl | h
            · exact Or.inr ⟨d, List.mem_cons_self _ _, he, rfl⟩
            · exact Or.inl h
          · exact Or.inr ⟨d', List.mem_cons_of_mem _ hd', h1, h2⟩
        · rintro (h | ⟨d', hd', h1, h2⟩)
          · exact Or.inl (List.mem_cons_of_mem _ h)
          · rcases List.mem_cons.mp hd' with rfl | hd'
            · exact Or.inl (h2 ▸ List.mem_cons_self _ _)
            · exact Or.inr ⟨d', hd', h1, h2⟩
    · rw [exception_step names d e he, ih]
      constructor
      · rintro (h | ⟨d', hd', h1, h2⟩)
        · exact Or.inl h
        · exact Or.inr ⟨d', List.mem_cons_of_mem _ hd', h1, h2⟩
      · rintro (h | ⟨d', hd', h1, h2⟩)
        · exact Or.inl h
        · rcases List.mem_cons.mp hd' with rfl | hd'
          · rw [he] at h1; cases h1
          · exact Or.inr ⟨d', hd', h1, h2⟩

/-- Each descriptor yields exactly one outcome. -/
theorem replicate_descriptors_length (ds : List DefinitionDescriptor)
    (names : List String) :
    (replicate_descriptors names ds).1.length = ds.length := by
  induction ds generalizing names with
  | nil => rfl
  | cons d ds ih => simp [replicate_descriptors, ih]

/-- Processing distributes over concatenation of the descriptor stream. -/
theorem replicate_descriptors_append (xs ys : List DefinitionDescriptor)
    (names : List String) :
    replicate_descriptors names (xs ++ ys) =
      ((replicate_descriptors names xs).1 ++
        (replicate_descriptors (replicate_descriptors names xs).2 ys).1,
       (replicate_descriptors (replicate_descriptors names xs).2 ys).2) := by
  induction xs generalizing names with
  | nil => simp [replicate_descriptors]
  | cons x xs ih => simp [replicate_descriptors, ih]

/-- Number of outcomes for pipeline name `n` on which the deployer was
invoked. -/
def deploys_for (n : String) (outs : List ProcessOutcome) : Nat :=
  (outs.filter (fun o => o.deploy_called && o.result.pipeline_name == n)).length

/-- At most one descriptor per name reaches the deployer; none does if the
name is already accepted. -/
theorem deploys_for_le (ds : List DefinitionDescriptor) (names : List String)
    (n : String) :
    deploys_for n (replicate_descriptors names ds).1 ≤
      if n ∈ names then 0 else 1 := by
  induction ds generalizing names with
  | nil =>
    simp [replicate_descriptors, deploys_for]
  | cons d ds ih =>
    rw [replicate_descriptors]
    rcases he : d.exception with _ | e
    · by_cases hc : d.pipeline_name ∈ names
      · rw [duplicate_step names d he hc]
        simpa [deploys_for] using ih names
      · rcases hstep : process_definition_descriptor names d with ⟨o, names'⟩
        obtain ⟨h2, hname⟩ := fresh_step names d he hc
        rw [hstep] at h2 hname
        simp only at h2 hname
        subst h2
        simp only
        rw [show deploys_for n (o :: (replicate_descriptors
            (d.pipeline_name :: names) ds).1) =
              (if o.deploy_called && o.result.pipeline_name == n then 1 else 0) +
                deploys_for n (replicate_descriptors
                  (d.pipeline_name :: names) ds).1 by
          rw [deploys_for, List.filter_cons]
          split <;> simp [deploys_for, Nat.add_comm]]
        by_cases hn : n = d.pipeline_name
        · subst hn
          have htail := ih (d.pipeline_name :: names)
          rw [if_pos (List.mem_cons_self d.pipeline_name names)] at htail
          rw [if_neg hc]
          split <;> omega
        · have hzero : (o.deploy_called && o.result.pipeline_name == n) = false := by
            rcases hb : o.deploy_called
            · rfl
            · have : (o.result.pipeline_name == n) = false := by
                rw [beq_eq_false_iff_ne]
                rw [hname]
                exact fun h => hn h.symm
              simp [this]
          rw [hzero]
          simp only [if_neg, Bool.false_eq_true, reduceIte, Nat.zero_add]
          have htail := ih (d.pipeline_name :: names)
          by_cases hmem : n ∈ names
          · rw [if_pos hmem]
            rw [if_pos (List.mem_cons_of_mem _ hmem)] at htail
            exact htail
          · rw [if_neg hmem]
            rw [if_neg (by
              intro hmm
              rcases List.mem_cons.mp hmm with h' | h'
              · exact hn h'
              · exact hmem h')] at htail
            exact htail
    · rw [exception_step names d e he]
      simpa [deploys_for] using ih names

/-- Outcome of the descriptor at position `xs.length` in the stream
`xs ++ d :: ys`, when an exception-free earlier descriptor already accepted
the same name. -/
theorem outcome_after_earlier_same_name (xs : List DefinitionDescriptor)
    (d : DefinitionDescriptor) (ys : List DefinitionDescriptor)
    (he : d.exception = none)
    (hearlier : ∃ d' ∈ xs, d'.exception = none ∧
      d'.pipeline_name = d.pipeline_name) :
    (replicate_descriptors [] (xs ++ d :: ys)).1.get? xs.length =
      some ⟨⟨d.pipeline_name, DeployStatus.SKIPPED,
        some ("duplicate pipeline name: " ++ d.pipeline_name), none⟩, false⟩ := by
  rw [replicate_descriptors_append]
  have hlen := replicate_descriptors_length xs ([] : List String)
  have hget : ∀ (as bs : List ProcessOutcome), as.length = xs.length →
      (as ++ bs).get? xs.length = bs.get? 0 := by
    intro as bs has
    rw [List.get?_append_right (by omega)]
    congr 1
    omega
  rw [hget _ _ hlen]
  have hmem : d.pipeline_name ∈ (replicate_descriptors [] xs).2 := by
    rw [replicate_descriptors_names]
    rcases hearlier with ⟨d', hd', h1, h2⟩
    exact Or.inr ⟨d', hd', h1, h2⟩
  rw [replicate_descriptors]
  rw [duplicate_step _ d he hmem]
  rfl

/-- Claim C5: within one replication run, when several descriptors produce the
same pipeline name, at most one of them reaches the deployer, and every
further exception-free descriptor with that name yields a SKIPPED result whose
error details are exactly `duplicate pipeline name: <name>`.  The accepted-name
set is read and updated atomically (`pipeline_name_conflict` models the single
mutex-guarded critical section of replicator.py:666-671). -/
theorem c5_duplicate_pipeline_names (xs : List DefinitionDescriptor)
    (d : DefinitionDescriptor) (ys : List DefinitionDescriptor)
    (he : d.exception = none)
    (hearlier : ∃ d' ∈ xs, d'.exception = none ∧
      d'.pipeline_name = d.pipeline_name) :
    (replicate_descriptors [] (xs ++ d :: ys)).1.get? xs.length =
      some ⟨⟨d.pipeline_name, DeployStatus.SKIPPED,
        some ("duplicate pipeline name: " ++ d.pipeline_name), none⟩, false⟩ ∧
    ∀ n : String,
      deploys_for n (replicate_descriptors [] (xs ++ d :: ys)).1 ≤ 1 := by
  refine ⟨outcome_after_earlier_same_name xs d ys he hearlier, fun n => ?_⟩
  have := deploys_for_le (xs ++ d :: ys) [] n
  simpa using this

/-- Witness for `c5_duplicate_pipeline_names`: two descriptors named "foo",
the second is skipped with the exact duplicate diagnostic and "foo" is
deployed only once. -/
theorem c5_witness :
    (replicate_descriptors []
        ([⟨"foo", none, true, "e", 1, none⟩] ++
          ⟨"foo", none, true, "e", 1, none⟩ :: [])).1.get? 1 =
      some ⟨⟨"foo", DeployStatus.SKIPPED,
        some ("duplicate pipeline name: " ++ "foo"), none⟩, false⟩ ∧
    deploys_for "foo"
      (replicate_descriptors []
        ([⟨"foo", none, true, "e", 1, none⟩] ++
          ⟨"foo", none, true, "e", 1, none⟩ :: [])).1 ≤ 1 :=
  ⟨(c5_duplicate_pipeline_names [⟨"foo", none, true, "e", 1, none⟩]
      ⟨"foo", none, true, "e", 1, none⟩ [] rfl
      ⟨⟨"foo", none, true, "e", 1, none⟩, by simp, rfl, rfl⟩).1,
   (c5_duplicate_pipeline_names [⟨"foo", none, true, "e", 1, none⟩]
      ⟨"foo", none, true, "e", 1, none⟩ [] rfl
      ⟨⟨"foo", none, true, "e", 1, none⟩, by simp, rfl, rfl⟩).2 "foo"⟩

/-- Claim C10: a descriptor whose rendering FAILED still inserts its pipeline
name into the accepted-name set — the duplicate check runs after rendering
regardless of the render status — so a later exception-free descriptor with
the same name (whatever its own render status) is reported as the
duplicate-name SKIPPED result, never deployed; instantiating the later
descriptor with a failed render also shows a render-failed descriptor whose
name conflicts is reported as duplicate-SKIPPED (error details are the
duplicate diagnostic, not the render error). -/
theorem c10_render_failed_still_claims_name (xs : List DefinitionDescriptor)
    (d : DefinitionDescriptor) (ys : List DefinitionDescriptor)
    (he : d.exception = none)
    (hearlier : ∃ d' ∈ xs, d'.exception = none ∧ d'.render_succeeds = false ∧
      d'.pipeline_name = d.pipeline_name) :
    (replicate_descriptors [] (xs ++ d :: ys)).1.get? xs.length =
      some ⟨⟨d.pipeline_name, DeployStatus.SKIPPED,
        some ("duplicate pipeline name: " ++ d.pipeline_name), none⟩, false⟩ :=
  outcome_after_earlier_same_name xs d ys he
    (by rcases hearlier with ⟨d', hd', h1, _, h3⟩; exact ⟨d', hd', h1, h3⟩)

/-- Witness for `c10_render_failed_still_claims_name`: the first "foo"
descriptor fails rendering, the second "foo" descriptor also fails rendering
but is reported as duplicate-SKIPPED (not with its render error). -/
theorem c10_witness :
    (replicate_descriptors []
        ([⟨"foo", none, false, "first render error", 1, none⟩] ++
          ⟨"foo", none, false, "second render error", 1, none⟩ :: [])).1.get? 1 =
      some ⟨⟨"foo", DeployStatus.SKIPPED,
        some ("duplicate pipeline name: " ++ "foo"), none⟩, false⟩ :=
  c10_render_failed_still_claims_name
    [⟨"foo", none, false, "first render error", 1, none⟩]
    ⟨"foo", none, false, "second render error", 1, none⟩ [] rfl
    ⟨⟨"foo", none, false, "first render error", 1, none⟩, by simp, rfl, rfl, rfl⟩

/-- The tuple `ignore_exceptions` of `should_notify_pipeline_owners`
(replicator.py:495-508): exception classes indicating infrastructure or
internal-template errors. -/
def ignore_exceptions : List PyExnClass :=
  [ .arithmeticErr, .attributeErr, .bufferErr, .eofErr, .importErr,
    .memoryErr, .nameErr, .osErr, .referenceErr, .recursionErr,
    .stxErr, .typeErr ]

/-- `should_notify_pipeline_owners` (replicator.py:485-513): a result whose
status carries the SUCCEEDED bit is never notified; otherwise notification is
suppressed exactly when the class of the descriptor's captured exception is in
`ignore_exceptions` (`type(e) in ignore_exceptions`; a missing exception —
`type(None)` — is not in the tuple, hence notified). -/
def should_notify_pipeline_owners (r : DeployResult) : Bool :=
  if r.deploy_status &&& DeployStatus.SUCCEEDED != 0 then false
  else
    match r.descriptor_exception with
    | some c => decide (¬ c ∈ ignore_exceptions)
    | none => true

/-- The failed results for which `process_results` (replicator.py:515-533)
attempts `_notify_broken_definition_owners`: the loop runs over
`failed_descriptors` and `continue`s when `should_notify_pipeline_owners`
denies. -/
def notified_descriptors (results : List DeployResult) : List DeployResult :=
  (failed_descriptors results).filter should_notify_pipeline_owners

/-- `_notify_broken_definition_owners` recipient resolution
(replicator.py:553-572): recipients are the e-mail addresses resolved from the
repository's CODEOWNERS; only when that set is empty does it fall back to the
head commit's committer and author. -/
def notification_recipients (codeowners_recipients
    committer_recipients : List String) : List String :=
  if codeowners_recipients.isEmpty then committer_recipients
  else codeowners_recipients

/-- Claim C6: for every FAILED replication result whose captured exception is
of a class in the infrastructure/internal-template set (arithmetic, attribute,
buffer, EOF, import, memory, name, OS, reference, recursion, syntax and type
errors), no owner notification is attempted; for other failures the
notification is attempted, and its recipients are the CODEOWNERS-resolved
addresses whenever CODEOWNERS yields any. -/
theorem c6_notification_filter (results : List DeployResult) (r : DeployResult)
    (hr : r ∈ results) (hfailed : r.deploy_status = DeployStatus.FAILED) :
    ((∃ c, r.descriptor_exception = some c ∧ c ∈ ignore_exceptions) →
      ¬ r ∈ notified_descriptors results) ∧
    ((∀ c, r.descriptor_exception = some c → ¬ c ∈ ignore_exceptions) →
      r ∈ notified_descriptors results) ∧
    (∀ codeowners_recipients committer_recipients : List String,
      codeowners_recipients ≠ [] →
      notification_recipients codeowners_recipients committer_recipients =
        codeowners_recipients) := by
  have hbit : (r.deploy_status &&& DeployStatus.SUCCEEDED != 0) = false := by
    rw [hfailed]
    decide
  refine ⟨?_, ?_, ?_⟩
  · rintro ⟨c, hcx, hcignore⟩ hmem
    rw [notified_descriptors] at hmem
    have := (List.mem_filter.mp hmem).2
    rw [should_notify_pipeline_owners, hbit] at this
    simp only [Bool.false_eq_true, if_false, hcx] at this
    exact absurd hcignore (by simpa using this)
  · intro hnone
    rw [notified_descriptors, List.mem_filter]
    constructor
    · rw [failed_descriptors, List.mem_filter]
      refine ⟨hr, ?_⟩
      rw [hfailed]
      decide
    · rw [should_notify_pipeline_owners, hbit]
      simp only [Bool.false_eq_true, if_false]
      rcases hx : r.descriptor_exception with _ | c
      · rfl
      · simpa using hnone c hx
  · intro cos comm hcos
    rw [notification_recipients, if_neg (by simpa using hcos)]

/-- Witness for `c6_notification_filter`: a FAILED result whose descriptor
captured a TypeError is not notified; the same theorem applied to a FAILED
result whose descriptor captured a ValueError shows it is notified. -/
theorem c6_witness :
    ¬ (⟨"p", DeployStatus.FAILED, some "trace", some PyExnClass.typeErr⟩ :
        DeployResult) ∈
      notified_descriptors
        [⟨"p", DeployStatus.FAILED, some "trace", some PyExnClass.typeErr⟩] ∧
    (⟨"q", DeployStatus.FAILED, some "trace", some PyExnClass.valueErr⟩ :
        DeployResult) ∈
      notified_descriptors
        [⟨"q", DeployStatus.FAILED, some "trace", some PyExnClass.valueErr⟩] :=
  ⟨(c6_notification_filter
      [⟨"p", DeployStatus.FAILED, some "trace", some PyExnClass.typeErr⟩]
      ⟨"p", DeployStatus.FAILED, some "trace", some PyExnClass.typeErr⟩
      (by decide) rfl).1 ⟨PyExnClass.typeErr, rfl, by decide⟩,
   ((c6_notification_filter
      [⟨"q", DeployStatus.FAILED, some "trace", some PyExnClass.valueErr⟩]
      ⟨"q", DeployStatus.FAILED, some "trace", some PyExnClass.valueErr⟩
      (by decide) rfl).2).1 (by intro c hc; cases hc; decide)⟩

/-- After a successful `set_pipeline`, the deployer only ever emits unpause
and expose calls. -/
theorem deploy_success_tail_calls (cfg : DeployerCfg) (r : SetPipelineResult) :
    ∀ c ∈ (deploy_success_tail cfg r).1,
      c = ConcourseCall.unpause_pipeline ∨ c = ConcourseCall.expose_pipeline := by
  rcases cfg with ⟨u, n, e⟩
  cases u <;> cases n <;> cases e <;> cases r <;> decide

/-- Claim C7: if `set_pipeline` fails with HTTP 500 and the exact body
`failed to save config: comparison with existing config failed during save`,
the deployer sleeps a random duration lying in [5,30] seconds and retries
exactly once — the trace is `set_pipeline, sleep, set_pipeline` followed only
by unpause/expose calls, with no further `set_pipeline`; any other HTTP error
is not retried: the trace is the single `set_pipeline` call and the deploy
yields a FAILED DeployResult. -/
theorem c7_save_race_retry (cfg : DeployerCfg) (second : SetPipelineOutcome)
    (rand : Nat) (status_code : Nat) (content : String) :
    ((status_code = 500 ∧ content = err_content) →
      ∃ rest : List ConcourseCall,
        (ConcourseDeployer.deploy cfg (.httpError status_code content) second
            rand).1 =
          ConcourseCall.set_pipeline ::
            ConcourseCall.sleep (randrange_5_30 rand) ::
              ConcourseCall.set_pipeline :: rest ∧
        (∀ c ∈ rest, c = ConcourseCall.unpause_pipeline ∨
          c = ConcourseCall.expose_pipeline) ∧
        5 ≤ randrange_5_30 rand ∧ randrange_5_30 rand ≤ 30) ∧
    (¬ (status_code = 500 ∧ content = err_content) →
      (ConcourseDeployer.deploy cfg (.httpError status_code content) second
          rand).1 = [ConcourseCall.set_pipeline] ∧
      (ConcourseDeployer.deploy cfg (.httpError status_code content) second
          rand).2.1 = DeployStatus.FAILED) := by
  have hrange : 5 ≤ randrange_5_30 rand ∧ randrange_5_30 rand ≤ 30 := by
    rw [randrange_5_30]
    have := Nat.mod_lt rand (show 0 < 25 by decide)
    omega
  constructor
  · rintro ⟨rfl, rfl⟩
    rcases second with r | ⟨code₂, content₂⟩ | _
    · exact ⟨(deploy_success_tail cfg r).1,
        by simp [ConcourseDeployer.deploy, err_content],
        deploy_success_tail_calls cfg r, hrange⟩
    · exact ⟨[], by simp [ConcourseDeployer.deploy, err_content],
        by simp, hrange⟩
    · exact ⟨[], by simp [ConcourseDeployer.deploy, err_content],
        by simp, hrange⟩
  · intro hrace
    constructor <;> simp [ConcourseDeployer.deploy, hrace]

/-- Witness for `c7_save_race_retry`: the race body is retried once (trace
`set_pipeline, sleep 8, set_pipeline` for randomness 3), a 404 is not. -/
theorem c7_witness :
    (∃ rest : List ConcourseCall,
      (ConcourseDeployer.deploy ⟨false, false, false⟩
          (.httpError 500 err_content) (.ok .UPDATED) 3).1 =
        ConcourseCall.set_pipeline :: ConcourseCall.sleep (randrange_5_30 3) ::
          ConcourseCall.set_pipeline :: rest ∧
      (∀ c ∈ rest, c = ConcourseCall.unpause_pipeline ∨
        c = ConcourseCall.expose_pipeline) ∧
      5 ≤ randrange_5_30 3 ∧ randrange_5_30 3 ≤ 30) ∧
    (ConcourseDeployer.deploy ⟨false, false, false⟩ (.httpError 404 "not found")
        (.ok .UPDATED) 3).1 = [ConcourseCall.set_pipeline] ∧
    (ConcourseDeployer.deploy ⟨false, false, false⟩ (.httpError 404 "not found")
        (.ok .UPDATED) 3).2.1 = DeployStatus.FAILED :=
  ⟨(c7_save_race_retry ⟨false, false, false⟩ (.ok .UPDATED) 3 500
      err_content).1 ⟨rfl, rfl⟩,
   (c7_save_race_retry ⟨false, false, false⟩ (.ok .UPDATED) 3 404
      "not found").2 (by decide)⟩

end Replicator

namespace Whd

/-- Model of `concourse.client.model.PipelineConfigResource` as consumed by
`ensure_pr_resource_updates` (src/whd/pull_request.py): its name, whether it
currently fails to check, and its `source.get('label')`. -/
structure PipelineConfigResource where
  name : String
  failing_to_check : Bool
  source_label : Option String
deriving DecidableEq

/-- `is_up_to_date` (pull_request.py:418-432): a resource requiring a label
that is not on the PR is trivially up to date (concourse would not discover
the PR anyway); otherwise the resource is up to date iff the PR number is
listed in its resource versions (`pr_number_listed`). -/
def is_up_to_date (pr_label_names : List String) (pr_number_listed : Bool)
    (r : PipelineConfigResource) : Bool :=
  match r.source_label with
  | some l => if ¬ l ∈ pr_label_names then true else pr_number_listed
  | none => pr_number_listed

/-- pull_request.py:436-440: resources kept for the next round — those failing
to check, or not up to date.  `listed` tells, per resource name, whether the
PR number is currently among its versions. -/
def outdated_resources (pr_label_names : List String)
    (listed : String → Bool) (resources : List PipelineConfigResource) :
    List PipelineConfigResource :=
  resources.filter
    (fun r => r.failing_to_check || ! is_up_to_date pr_label_names (listed r.name) r)

/-- `ensure_pr_resource_updates` (pull_request.py:397-457), fuel-bounded.
Each iteration sleeps, decrements `retries`, logs "giving up" when `retries`
drops below zero — WITHOUT returning — then recomputes the outdated resources
(via the oracle `listed` for the current iteration), returns when none is
outdated, and otherwise triggers a resource check and recurses on the outdated
subset.  The value is `some checks` — the number of `trigger_resource_check`
batches issued — when the recursion returns within `fuel` iterations, and
`none` otherwise.  The Python recursion has no fuel: a `none` outcome for
every fuel means the code never returns. -/
def ensure_pr_resource_updates (pr_label_names : List String)
    (listed : Nat → String → Bool) :
    Nat → Nat → Int → List PipelineConfigResource → Nat → Option Nat
  | 0, _, _, _, _ => none
  | fuel + 1, iteration, retries, resources, checks =>
    let retries' := retries - 1
    let outdated := outdated_resources pr_label_names (listed iteration) resources
    if outdated.isEmpty then some checks
    else
      ensure_pr_resource_updates pr_label_names listed fuel (iteration + 1)
        retries' outdated (checks + 1)

/-- Number of `trigger_resource_check` batches `ensure_pr_resource_updates`
issues within the first `fuel` iterations (whether or not it has returned). -/
def ensure_pr_resource_checks (pr_label_names : List String)
    (listed : Nat → String → Bool) :
    Nat → Nat → Int → List PipelineConfigResource → Nat
  | 0, _, _, _ => 0
  | fuel + 1, iteration, retries, resources =>
    let retries' := retries - 1
    let outdated := outdated_resources pr_label_names (listed iteration) resources
    if outdated.isEmpty then 0
    else
      1 + ensure_pr_resource_checks pr_label_names listed fuel (iteration + 1)
        retries' outdated

/-- A PR resource that never lists the PR number and has no required label. -/
def c2_resource : PipelineConfigResource := ⟨"pr-resource", false, none⟩

/-- Claim C2 (code bug): `ensure_pr_resource_updates` logs "giving up" once
`retries` is exhausted but lacks a `return`, so against a resource that never
becomes up to date the recursion never terminates — for any `retries` value
(10 and 0 included), any iteration bound `fuel` expires without the function
returning, and one resource-check batch is triggered per iteration, so with
`retries = 0` far more than one check is performed.  This contradicts the
claimed bounds (at most 10 polling iterations; exactly one check for
`retries = 0`), which match the code's own "giving up" log message.  In Python
the recursion only stops when the interpreter's recursion limit raises
`RecursionError`. -/
theorem c2_ensure_pr_updates_unbounded :
    (∀ (fuel iteration : Nat) (retries : Int) (checks : Nat),
      ensure_pr_resource_updates [] (fun _ _ => false) fuel iteration retries
        [c2_resource] checks = none) ∧
    (∀ fuel : Nat,
      ensure_pr_resource_checks [] (fun _ _ => false) fuel 0 0 [c2_resource] =
        fuel) := by
  have houtd : ∀ it : Nat,
      outdated_resources [] ((fun _ _ => false) it) [c2_resource] =
        [c2_resource] := by
    intro it
    rfl
  constructor
  · intro fuel
    induction fuel with
    | zero => intro iteration retries checks; rfl
    | succ fuel ih =>
      intro iteration retries checks
      rw [ensure_pr_resource_updates]
      rw [houtd iteration]
      rw [if_neg (by decide)]
      exact ih (iteration + 1) (retries - 1) (checks + 1)
  · have hgen : ∀ (fuel iteration : Nat) (retries : Int),
        ensure_pr_resource_checks [] (fun _ _ => false) fuel iteration retries
          [c2_resource] = fuel := by
      intro fuel
      induction fuel with
      | zero => intro iteration retries; rfl
      | succ fuel ih =>
        intro iteration retries
        rw [ensure_pr_resource_checks]
        rw [houtd iteration]
        rw [if_neg (by decide)]
        rw [ih (iteration + 1) (retries - 1)]
        omega
    intro fuel
    exact hgen fuel 0 0

/-- Splitting a character list at a separator, mirroring Python's
`str.split`: `"a/b"` gives `["a","b"]`, `"a"` gives `["a"]`, adjacent
separators give empty parts. -/
def split_chars (sep : Char) : List Char → List (List Char)
  | [] => [[]]
  | c :: cs =>
    match split_chars sep cs with
    | [] => if c = sep then [[], []] else [[c]]
    | r :: rs => if c = sep then [] :: r :: rs else (c :: r) :: rs

/-- `trusted_team.split('/')` (pull_request.py:257); implemented over the
string's character list so that it evaluates inside the kernel. -/
def split_on_slash (s : String) : List String :=
  (split_chars (Char.ofNat 47) s.toList).map (fun cs => String.mk cs)

/-- `iter_trusted_teams_for_hostname` inside `_should_label`
(pull_request.py:252-271): a 2-part entry `org/team` always matches; a 3-part
entry `host/org/team` matches only the given hostname and is yielded as
`org/team`; any other shape raises `ValueError` (modelled as `none`). -/
def iter_trusted_teams_for_hostname :
    List String → String → Option (List String)
  | [], _ => some []
  | t :: ts, hostname =>
    match split_on_slash t with
    | [_, _] => (iter_trusted_teams_for_hostname ts hostname).map (t :: ·)
    | [host, org, team] =>
      if host = hostname then
        (iter_trusted_teams_for_hostname ts hostname).map
          ((org ++ "/" ++ team) :: ·)
      else iter_trusted_teams_for_hostname ts hostname
    | _ => none

/-- `_should_label` (pull_request.py:244-292): when the host-filtered trusted
teams are non-empty, allow iff the sender is a member of any of them (no org
fallback); otherwise allow iff the sender is a member of the repository's
owning organisation.  `is_team_member` and `is_org_member` are the GitHub
membership oracles for the PR's sender. -/
def should_label (trusted_teams : List String) (github_hostname : String)
    (is_team_member : String → Bool) (is_org_member : Bool) : Option Bool :=
  (iter_trusted_teams_for_hostname trusted_teams github_hostname).map
    (fun teams =>
      if ¬ teams.isEmpty then teams.any is_team_member
      else is_org_member)

/-- GitHub API calls `set_pr_labels` can emit. -/
inductive GithubCall where
  | add_labels_to_pull_request (labels : List String)
  | add_comment_to_pr
deriving DecidableEq

/-- Pull-request actions processed by the dispatcher. -/
inductive PullRequestAction where
  | opened
  | reopened
  | labeled
  | synchronize
deriving DecidableEq

/-- The set of labels required by the pull-request resources
(pull_request.py:304-307): the non-null `source.get('label')` values. -/
def required_labels_of (resources : List PipelineConfigResource) :
    List String :=
  resources.filterMap (·.source_label)

/-- `set_pr_labels` (pull_request.py:295-394): with no required labels it
reports success without any API call; for OPENED, a trusted sender gets the
required labels and an untrusted one gets an explanatory comment only; for
SYNCHRONIZE, a trusted sender gets the labels and an untrusted one nothing;
for LABELED, an `lgtm`/`reviewed/lgtm` event label applies the required labels
unconditionally.  Returns `none` when `_should_label` raises (malformed
trusted-team entry). -/
def set_pr_labels (action : PullRequestAction) (event_label : Option String)
    (resources : List PipelineConfigResource) (trusted_teams : List String)
    (github_hostname : String) (is_team_member : String → Bool)
    (is_org_member : Bool) : Option (List GithubCall × Bool) :=
  let required := required_labels_of resources
  if required.isEmpty then some ([], true)
  else
    match action with
    | .opened =>
      (should_label trusted_teams github_hostname is_team_member
        is_org_member).map
        (fun b =>
          if b then ([GithubCall.add_labels_to_pull_request required], true)
          else ([GithubCall.add_comment_to_pr], false))
    | .synchronize =>
      (should_label trusted_teams github_hostname is_team_member
        is_org_member).map
        (fun b =>
          if b then ([GithubCall.add_labels_to_pull_request required], true)
          else ([], false))
    | .labeled =>
      match event_label with
      | some l =>
        if l = "lgtm" ∨ l = "reviewed/lgtm" then
          some ([GithubCall.add_labels_to_pull_request required], true)
        else some ([], false)
      | none => some ([], false)
    | .reopened => some ([], false)

/-- Claim C4: host-matching trusted teams, when declared, decide the label
policy — the sender must be a member of one of them, with no fallback to org
membership; with no matching trusted team, labels may be auto-applied iff the
sender is a member of the owning organisation; and a sender that is neither
(team member when teams are declared, org member otherwise) causes no label to
be applied on an opened PR — only an explanatory comment. -/
theorem c4_label_policy (trusted_teams : List String)
    (github_hostname : String) (is_team_member : String → Bool)
    (is_org_member : Bool) (teams : List String)
    (hteams : iter_trusted_teams_for_hostname trusted_teams github_hostname =
      some teams) :
    (teams ≠ [] →
      should_label trusted_teams github_hostname is_team_member is_org_member =
        some (teams.any is_team_member)) ∧
    (teams = [] →
      should_label trusted_teams github_hostname is_team_member is_org_member =
        some is_org_member) ∧
    (∀ (event_label : Option String)
        (resources : List PipelineConfigResource)
        (calls : List GithubCall) (ok : Bool),
      should_label trusted_teams github_hostname is_team_member is_org_member =
        some false →
      set_pr_labels .opened event_label resources trusted_teams
        github_hostname is_team_member is_org_member = some (calls, ok) →
      ∀ ls : List String, ¬ GithubCall.add_labels_to_pull_request ls ∈ calls) := by
  refine ⟨?_, ?_, ?_⟩
  · intro hne
    rw [should_label, hteams, Option.map_some']
    rw [if_pos (by simpa [List.isEmpty_iff] using hne)]
  · intro he
    subst he
    rw [should_label, hteams, Option.map_some']
    rfl
  · intro event_label resources calls ok hdeny hset
    rw [set_pr_labels] at hset
    by_cases hreq : (required_labels_of resources).isEmpty
    · rw [if_pos hreq] at hset
      simp only [Option.some_inj] at hset
      have hcalls : ([] : List GithubCall) = calls := congrArg Prod.fst hset
      subst hcalls
      intro ls h
      cases h
    · rw [if_neg hreq] at hset
      rw [hdeny, Option.map_some'] at hset
      simp only [if_false, Option.some_inj, Bool.false_eq_true] at hset
      have hcalls : [GithubCall.add_comment_to_pr] = calls :=
        congrArg Prod.fst hset
      subst hcalls
      intro ls h
      rcases List.mem_cons.mp h with h | h
      · cases h
      · cases h

/-- Trusted teams used by the C4 witness: one plain `org/team` entry and one
host-qualified entry for a different host. -/
def c4_teams : List String := ["acme/admins", "other.host/acme/ops"]

/-- Resources used by the C4 witness: one PR resource requiring a label. -/
def c4_resources : List PipelineConfigResource :=
  [⟨"pr-res", false, some "ok-to-test"⟩]

/-- Witness for `c4_label_policy`: with one host-matching trusted team and a
sender who is in no team (although an org member), the policy denies and an
opened PR gets a comment, not labels. -/
theorem c4_witness :
    should_label c4_teams "github.example" (fun _ => false) true =
      some (["acme/admins"].any (fun _ => false)) ∧
    ¬ GithubCall.add_labels_to_pull_request ["ok-to-test"] ∈
      [GithubCall.add_comment_to_pr] :=
  ⟨(c4_label_policy c4_teams "github.example" (fun _ => false) true
      ["acme/admins"] (by decide)).1 (by decide),
   (c4_label_policy c4_teams "github.example" (fun _ => false) true
      ["acme/admins"] (by decide)).2.2 none c4_resources
      [GithubCall.add_comment_to_pr] false (by decide) (by decide)
      ["ok-to-test"]⟩

end Whd

namespace Oci

/-- `ReplicationMode` (src/oci/__init__.py:26-61). -/
inductive ReplicationMode where
  | REGISTRY_DEFAULTS
  | PREFER_MULTIARCH
  | NORMALISE_TO_MULTIARCH
deriving DecidableEq

/-- The manifest media types `replicate_artifact` distinguishes
(oci/__init__.py:164-167, 246-248). -/
inductive MediaType where
  | docker_manifest_list
  | oci_image_index
  | docker_manifest_v2
  | oci_manifest
deriving DecidableEq

/-- A blob reference (digest and octet count) as it appears in a manifest. -/
structure OciBlobRef where
  digest : String
  size : Nat
deriving DecidableEq

/-- A schema-2 single-image manifest as stored in the source registry: its
exact manifest bytes, the parsed fields the code mutates, and whether its
config blob can actually be fetched from the source
(oci/__init__.py:344-348 passes `absent_ok` for the config blob). -/
structure SrcImage where
  raw : String
  mediaType : MediaType
  config : OciBlobRef
  layers : List OciBlobRef
  annotations : List (String × String)
  config_blob_present : Bool
deriving DecidableEq

/-- A schema-1 (legacy docker) manifest as stored in the source registry:
its exact bytes, its `history[0].v1Compatibility` JSON (the config template,
oci/__init__.py:379), the layer references the v1→v2 conversion produces and
the uncompressed layer digests computed while streaming the layer blobs
(oci/__init__.py:358-367). -/
structure SrcV1 where
  raw : String
  history0_v1Compatibility : String
  layers : List OciBlobRef
  diff_ids : List String
deriving DecidableEq

/-- A sub-manifest referenced by an image index (fetched by digest during the
per-entry recursion, oci/__init__.py:184-207). -/
inductive SrcSub where
  | v1 (m : SrcV1)
  | image (m : SrcImage)
deriving DecidableEq

/-- One entry of an image index: the recorded digest and size. -/
structure IndexEntry where
  digest : String
  size : Nat
deriving DecidableEq

/-- A manifest list / image index as stored in the source registry, each entry
paired with the sub-manifest its digest resolves to. -/
structure SrcIndex where
  raw : String
  mediaType : MediaType
  entries : List (IndexEntry × SrcSub)
  annotations : List (String × String)
deriving DecidableEq

/-- The top-level artifact the replication starts from.  Which variant the
source registry serves depends on the mode's Accept header; that choice is
folded into this value. -/
inductive SrcArtifact where
  | v1 (m : SrcV1)
  | image (m : SrcImage)
  | index (m : SrcIndex)
deriving DecidableEq

/-- The source's top-level manifest bytes. -/
def SrcArtifact.raw_bytes : SrcArtifact → String
  | .v1 m => m.raw
  | .image m => m.raw
  | .index m => m.raw

def media_type_str : MediaType → String
  | .docker_manifest_list =>
    "application/vnd.docker.distribution.manifest.list.v2+json"
  | .oci_image_index => "application/vnd.oci.image.index.v1+json"
  | .docker_manifest_v2 =>
    "application/vnd.docker.distribution.manifest.v2+json"
  | .oci_manifest => "application/vnd.oci.image.manifest.v1+json"

def dump_annotations : List (String × String) → String
  | [] => ""
  | (k, v) :: rest => "," ++ k ++ "=" ++ v ++ dump_annotations rest

def dump_blob_ref (b : OciBlobRef) : String :=
  b.digest ++ "+" ++ toString b.size

def dump_blob_refs : List OciBlobRef → String
  | [] => ""
  | b :: rest => ";" ++ dump_blob_ref b ++ dump_blob_refs rest

/-- `json.dumps(manifest.as_dict())` for a schema-2 image manifest, modelled
as a deterministic structural printer (the exact JSON layout is irrelevant to
the verified properties; what matters is that re-serialisation is a function
of the in-memory manifest). -/
def dump_image_manifest (mt : MediaType) (config : OciBlobRef)
    (layers : List OciBlobRef) (annotations : List (String × String)) :
    String :=
  "schemaVersion=2 mediaType=" ++ media_type_str mt ++
    " config=" ++ dump_blob_ref config ++
    " layers=" ++ dump_blob_refs layers ++
    " annotations=" ++ dump_annotations annotations

def dump_index_entries : List IndexEntry → String
  | [] => ""
  | e :: rest => ";" ++ e.digest ++ "+" ++ toString e.size ++
      dump_index_entries rest

/-- `json.dumps(manifest.as_dict())` for a manifest list, modelled as a
deterministic structural printer. -/
def dump_manifest_list (mt : MediaType) (entries : List IndexEntry)
    (annotations : List (String × String)) : String :=
  "schemaVersion=2 mediaType=" ++ media_type_str mt ++
    " manifests=" ++ dump_index_entries entries ++
    " annotations=" ++ dump_annotations annotations

def get_anno : List (String × String) → String → Option String
  | [], _ => none
  | (k, v) :: rest, key => if k = key then some v else get_anno rest key

/-- Python dict assignment `manifest.annotations[k] = v`. -/
def set_anno (l : List (String × String)) (key v : String) :
    List (String × String) :=
  if (l.map Prod.fst).contains key then
    l.map (fun p => if p.1 = key then (key, v) else p)
  else l ++ [(key, v)]

/-- The annotation-merging loop (oci/__init__.py:220-228 and 402-413): a key
is only written when absent or different, and the manifest is marked dirty
exactly when some write happened. -/
def update_annotations (existing upd : List (String × String)) :
    List (String × String) × Bool :=
  upd.foldl
    (fun acc kv =>
      if get_anno acc.1 kv.1 = some kv.2 then acc
      else (set_anno acc.1 kv.1 kv.2, true))
    (existing, false)

def dump_diff_ids : List String → String
  | [] => ""
  | d :: rest => ";" ++ d ++ dump_diff_ids rest

/-- The synthesised config blob (oci/__init__.py:378-387): the v1 manifest's
`history[0].v1Compatibility` JSON with its `rootfs` replaced by the computed
uncompressed layer digests. -/
def mk_fake_cfg (history0 : String) (diff_ids : List String) : String :=
  "cfg v1Compatibility=" ++ history0 ++
    " rootfs.type=layers rootfs.diff_ids=" ++ dump_diff_ids diff_ids

/-- Modelled from the spec: `oci.convert.v1_manifest_to_v2` (file
oci/convert.py is not under src/) converts a schema-1 manifest in memory into
a schema-2 image manifest whose config blob does not exist in the source and
is fabricated later from the uncompressed layer digests (spec §4.2 items 2
and the config-blob synthesis paragraph).  Modelled as producing the v2 media
type and the converted layer references. -/
def v1_manifest_to_v2 (m : SrcV1) : MediaType × List OciBlobRef :=
  (MediaType.docker_manifest_v2, m.layers)

/-- Replication of a schema-1 source (oci/__init__.py:139-160 and 378-400):
the manifest is converted to schema 2, the config blob is synthesised from
`history[0].v1Compatibility` and the uncompressed layer digests, and the
uploaded manifest bytes are the re-serialised converted manifest with the
synthesised config reference patched in — never the source bytes. -/
def replicate_v1 (hash : String → String)
    (annotations : List (String × String)) (m : SrcV1) : Option String :=
  let converted := v1_manifest_to_v2 m
  let fake_cfg := mk_fake_cfg m.history0_v1Compatibility m.diff_ids
  let cfg_ref : OciBlobRef := ⟨hash fake_cfg, fake_cfg.length⟩
  let raw₁ := dump_image_manifest converted.1 cfg_ref converted.2 []
  let merged := update_annotations [] annotations
  some (if merged.2 then dump_image_manifest converted.1 cfg_ref converted.2
    merged.1 else raw₁)

/-- Replication of a schema-2 single image outside NORMALISE mode
(oci/__init__.py:295-300, blob loop 306-376, annotations 402-413): the blob
loop copies blobs verbatim and leaves the manifest bytes untouched; if the
config blob is absent in the source the code falls back to config synthesis
(line 349-356) and then crashes looking up `history` on a schema-2 manifest
(line 379), so no manifest is uploaded (`none`); otherwise the uploaded bytes
are the source bytes unless the annotation merge dirtied the manifest. -/
def replicate_image (hash : String → String)
    (annotations : List (String × String)) (m : SrcImage) : Option String :=
  if m.config_blob_present then
    let merged := update_annotations m.annotations annotations
    some (if merged.2 then
      dump_image_manifest m.mediaType m.config m.layers merged.1
    else m.raw)
  else none

/-- The recursive per-entry replication (oci/__init__.py:202-207): the nested
call passes the same client and annotations but no platform filter and the
default REGISTRY_DEFAULTS mode; the sub-manifest is addressed by digest, so
the sub-artifact is served as stored. -/
def replicate_sub (hash : String → String)
    (annotations : List (String × String)) : SrcSub → Option String
  | .v1 m => replicate_v1 hash annotations m
  | .image m => replicate_image hash annotations m

/-- One iteration of the per-entry loop of the multi-arch branch
(oci/__init__.py:184-218): drop the entry when the platform filter rejects it
(marking the manifest dirty); otherwise replicate the sub-manifest and replace
the entry — marking dirty — exactly when the replicated bytes hash to a digest
other than the recorded one.  `none` propagates a raised exception. -/
def replicate_index_step (hash : String → String)
    (platform_filter : Option (String → Bool)) (platform_of : SrcSub → String)
    (annotations : List (String × String))
    (acc : Option (List IndexEntry × Bool)) (p : IndexEntry × SrcSub) :
    Option (List IndexEntry × Bool) :=
  match acc with
  | none => none
  | some (entries, dirty) =>
    let keep :=
      match platform_filter with
      | some f => f (platform_of p.2)
      | none => true
    if keep then
      match replicate_sub hash annotations p.2 with
      | none => none
      | some sub_bytes =>
        let sub_digest := hash sub_bytes
        if sub_digest ≠ p.1.digest then
          some (entries ++ [⟨sub_digest, sub_bytes.length⟩], true)
        else some (entries ++ [p.1], dirty)
    else some (entries, true)

/-- The multi-arch branch of `replicate_artifact` (oci/__init__.py:161-244):
walk the entries, merge the annotations, and re-serialise the top-level
manifest only when something was modified — otherwise upload the source bytes
(`raw_manifest` stays untouched). -/
def replicate_index (hash : String → String)
    (platform_filter : Option (String → Bool)) (platform_of : SrcSub → String)
    (annotations : List (String × String)) (m : SrcIndex) : Option String :=
  match m.entries.foldl
      (replicate_index_step hash platform_filter platform_of annotations)
      (some ([], false)) with
  | none => none
  | some (entries, dirty₁) =>
    let merged := update_annotations m.annotations annotations
    some (if dirty₁ || merged.2 then
      dump_manifest_list m.mediaType entries merged.1
    else m.raw)

/-- `replicate_artifact` (oci/__init__.py:64-424) restricted to the data flow
that determines the uploaded top-level manifest bytes; blob traffic is copied
verbatim and never alters `raw_manifest`.  The value is the manifest bytes
put to the target, or `none` when the call raises.  In NORMALISE mode a
single image is wrapped in a synthesised one-entry manifest list
(oci/__init__.py:250-293). -/
def replicate_artifact (hash : String → String) (mode : ReplicationMode)
    (platform_filter : Option (String → Bool)) (platform_of : SrcSub → String)
    (annotations : List (String × String)) : SrcArtifact → Option String
  | .v1 m => replicate_v1 hash annotations m
  | .image m =>
    if mode = ReplicationMode.NORMALISE_TO_MULTIARCH then
      match replicate_image hash annotations m with
      | none => none
      | some bytes =>
        some (dump_manifest_list MediaType.docker_manifest_list
          [⟨hash bytes, bytes.length⟩] [])
    else replicate_image hash annotations m
  | .index m => replicate_index hash platform_filter platform_of annotations m

/-- An index entry supports verbatim replication when it references a schema-2
single image whose config blob is present in the source and whose manifest
bytes hash to the recorded digest (which a content-addressed registry
guarantees, since the sub-manifest is fetched by that digest). -/
def entry_verbatim_ok (hash : String → String) (p : IndexEntry × SrcSub) :
    Bool :=
  match p.2 with
  | .image img => img.config_blob_present && (hash img.raw == p.1.digest)
  | .v1 _ => false

/-- A source artifact supports verbatim replication: it is schema-2, its
config blob is present (single-image case), and every index entry is a
well-formed schema-2 single image. -/
def source_verbatim_ok (hash : String → String) : SrcArtifact → Bool
  | .v1 _ => false
  | .image m => m.config_blob_present
  | .index m => m.entries.all (entry_verbatim_ok hash)

/-- With no annotations the merge loop does nothing. -/
theorem update_annotations_nil (existing : List (String × String)) :
    update_annotations existing [] = (existing, false) := rfl

/-- Over well-formed entries, the per-entry loop (no filter, no annotations)
keeps every entry unchanged and never dirties the manifest. -/
theorem replicate_index_fold_verbatim (hash : String → String)
    (platform_of : SrcSub → String) (entries : List (IndexEntry × SrcSub))
    (h : entries.all (entry_verbatim_ok hash) = true) :
    ∀ es : List IndexEntry,
      entries.foldl (replicate_index_step hash none platform_of [])
        (some (es, false)) = some (es ++ entries.map Prod.fst, false) := by
  induction entries with
  | nil =>
    intro es
    simp [List.foldl_nil]
  | cons p rest ih =>
    intro es
    rw [List.all_cons, Bool.and_eq_true] at h
    obtain ⟨hp, hrest⟩ := h
    rcases p with ⟨e, sub⟩
    rcases sub with m | img
    · rw [entry_verbatim_ok] at hp
      cases hp
    · rw [entry_verbatim_ok, Bool.and_eq_true, beq_iff_eq] at hp
      obtain ⟨hcfg, hdig⟩ := hp
      have hstep : replicate_index_step hash none platform_of []
          (some (es, false)) (e, SrcSub.image img) = some (es ++ [e], false) := by
        simp only [replicate_index_step]
        rw [show replicate_sub hash [] (SrcSub.image img) = some img.raw from by
          rw [replicate_sub, replicate_image, if_pos hcfg,
            update_annotations_nil]
          rfl]
        simp [hdig]
      rw [List.foldl_cons, hstep, ih hrest (es ++ [e])]
      rw [List.map_cons, List.append_assoc]
      rfl

/-- Claim C8 (amended): for an OCI replication with no platform filter and no
annotations, in PREFER_MULTIARCH mode, the uploaded top-level manifest bytes
equal the source's top-level manifest bytes byte-for-byte, provided the source
supports verbatim replication: its top-level manifest is schema 2 with its
config blob present, and — for an image index — every entry references a
schema-2 single image with present config blob whose manifest bytes hash to
the recorded digest (content-addressed registries guarantee this).  A schema-1
(legacy) source is converted and its bytes differ (see the counterexample). -/
theorem c8_verbatim (hash : String → String) (platform_of : SrcSub → String)
    (src : SrcArtifact) (h : source_verbatim_ok hash src = true) :
    replicate_artifact hash ReplicationMode.PREFER_MULTIARCH none platform_of
      [] src = some src.raw_bytes := by
  rcases src with m | m | m
  · rw [source_verbatim_ok] at h
    cases h
  · rw [source_verbatim_ok] at h
    rw [replicate_artifact, if_neg (by decide)]
    rw [replicate_image, if_pos h, update_annotations_nil]
    rfl
  · rw [source_verbatim_ok] at h
    rw [replicate_artifact, replicate_index]
    rw [replicate_index_fold_verbatim hash platform_of m.entries h []]
    rw [update_annotations_nil]
    rfl

/-- The schema-1 artifact and stand-in hash used by the C8 counterexample. -/
def c8_src : SrcArtifact :=
  .v1 ⟨"legacy-v1-manifest-raw-bytes", "v1compat-cfg-json",
    [⟨"sha256:layer1", 3⟩], ["sha256:diff1"]⟩

def c8_hash : String → String := fun s => "sha256-of:" ++ s

/-- Claim C8, counterexample: a schema-1 (legacy docker) source replicated
with no platform filter, no annotations, in PREFER_MULTIARCH mode uploads a
converted schema-2 manifest with a synthesised config blob — its bytes are
not the source's top-level manifest bytes, refuting the unconditional
byte-for-byte claim (the source itself logs "Cannot verbatimly replicate",
oci/__init__.py:143-148). -/
theorem c8_counterexample :
    replicate_artifact c8_hash ReplicationMode.PREFER_MULTIARCH none
        (fun _ => "linux/amd64") [] c8_src ≠
      some (SrcArtifact.raw_bytes c8_src) := by
  decide

/-- Witness for `c8_verbatim`: a one-entry image index whose entry is a
consistent schema-2 image replicates byte-for-byte. -/
theorem c8_witness :
    replicate_artifact (fun s => "h" ++ s) ReplicationMode.PREFER_MULTIARCH
        none (fun _ => "linux/amd64") []
        (.index ⟨"index-raw-bytes", .oci_image_index,
          [(⟨"himg-bytes", 9⟩,
            .image ⟨"img-bytes", .oci_manifest, ⟨"hcfg", 2⟩, [⟨"hl1", 3⟩],
              [], true⟩)], []⟩) = some "index-raw-bytes" :=
  c8_verbatim (fun s => "h" ++ s) (fun _ => "linux/amd64")
    (.index ⟨"index-raw-bytes", .oci_image_index,
      [(⟨"himg-bytes", 9⟩,
        .image ⟨"img-bytes", .oci_manifest, ⟨"hcfg", 2⟩, [⟨"hl1", 3⟩],
          [], true⟩)], []⟩)
    (by decide)

end Oci

namespace Cnudie

/-- What one layer of the composite component-descriptor lookup can return
(cnudie/retrieve.py:517-554): a descriptor (modelled by a numeric id), a plain
miss (`None`, also the case of a caught `OciImageNotFoundException`), or a
miss carrying a `WriteBack`. -/
inductive LookupRes where
  | found (descriptor : Nat)
  | miss
  | missWithWriteBack
deriving DecidableEq

/-- The walk of `composite_component_descriptor_lookup.lookup`
(cnudie/retrieve.py:522-541): layers are tried in order at position `idx`,
indices of layers that returned a `WriteBack` accumulate in `wbs`; on the
first descriptor hit every collected write-back is invoked once with the found
descriptor (returned as `(layer index, descriptor)` pairs) and the walk stops;
a total miss returns no descriptor and invokes no write-back (absent_ok). -/
def composite_lookup_walk :
    List LookupRes → Nat → List Nat → Option Nat × List (Nat × Nat)
  | [], _, _ => (none, [])
  | l :: rest, idx, wbs =>
    match l with
    | .found d => (some d, wbs.map (fun i => (i, d)))
    | .miss => composite_lookup_walk rest (idx + 1) wbs
    | .missWithWriteBack => composite_lookup_walk rest (idx + 1) (wbs ++ [idx])

/-- `composite_component_descriptor_lookup` applied to the layers' outcomes:
result and the write-back invocations performed. -/
def composite_lookup (layers : List LookupRes) : Option Nat × List (Nat × Nat) :=
  composite_lookup_walk layers 0 []

/-- Indices (counting from `idx`) of the layers that return a `WriteBack`. -/
def writeback_layer_indices : List LookupRes → Nat → List Nat
  | [], _ => []
  | LookupRes.found _ :: rest, idx => writeback_layer_indices rest (idx + 1)
  | LookupRes.miss :: rest, idx => writeback_layer_indices rest (idx + 1)
  | LookupRes.missWithWriteBack :: rest, idx =>
    idx :: writeback_layer_indices rest (idx + 1)

/-- Every index collected from position `idx` onwards is at least `idx`. -/
theorem writeback_layer_indices_ge (layers : List LookupRes) (idx : Nat) :
    ∀ j ∈ writeback_layer_indices layers idx, idx ≤ j := by
  induction layers generalizing idx with
  | nil => intro j h; cases h
  | cons l rest ih =>
    intro j h
    rcases l with d | _ | _
    · have := ih (idx + 1) j h
      omega
    · have := ih (idx + 1) j h
      omega
    · rw [writeback_layer_indices] at h
      rcases List.mem_cons.mp h with rfl | h
      · omega
      · have := ih (idx + 1) j h
        omega

/-- Each layer index occurs in the collected write-back indices once if that
layer returned a `WriteBack`, zero times otherwise. -/
theorem writeback_layer_indices_count (layers : List LookupRes)
    (idx j : Nat) :
    (writeback_layer_indices layers idx).count (idx + j) =
      if layers.get? j = some LookupRes.missWithWriteBack then 1 else 0 := by
  induction layers generalizing idx j with
  | nil =>
    simp [writeback_layer_indices]
  | cons l rest ih =>
    have hnotmem : ¬ idx ∈ writeback_layer_indices rest (idx + 1) := by
      intro hmem
      have := writeback_layer_indices_ge rest (idx + 1) idx hmem
      omega
    rcases j with _ | j
    · rcases l with d | _ | _
      · rw [writeback_layer_indices, Nat.add_zero]
        simp [List.count_eq_zero.mpr hnotmem]
      · rw [writeback_layer_indices, Nat.add_zero]
        simp [List.count_eq_zero.mpr hnotmem]
      · rw [writeback_layer_indices, Nat.add_zero]
        simp [List.count_cons, List.count_eq_zero.mpr hnotmem]
    · have harith : idx + (j + 1) = (idx + 1) + j := by omega
      rcases l with d | _ | _
      · rw [writeback_layer_indices, harith, ih (idx + 1) j]
        rfl
      · rw [writeback_layer_indices, harith, ih (idx + 1) j]
        rfl
      · rw [writeback_layer_indices, harith, List.count_cons]
        have hne : ((idx : Nat) == (idx + 1) + j) = false := by
          rw [beq_eq_false_iff_ne]
          omega
        rw [hne]
        simp only [Bool.false_eq_true, if_false, Nat.add_zero]
        rw [ih (idx + 1) j]
        rfl

/-- The walk over `pre ++ found d :: rest` with hit-free `pre`: it returns the
descriptor found right after `pre` and invokes exactly the write-backs of
`pre` (after those already accumulated), each with the found descriptor. -/
theorem composite_lookup_walk_hit (pre : List LookupRes) (d : Nat)
    (rest : List LookupRes) (idx : Nat) (wbs : List Nat)
    (hpre : ∀ l ∈ pre, ∀ x, l ≠ LookupRes.found x) :
    composite_lookup_walk (pre ++ LookupRes.found d :: rest) idx wbs =
      (some d,
        (wbs ++ writeback_layer_indices pre idx).map (fun i => (i, d))) := by
  induction pre generalizing idx wbs with
  | nil =>
    simp [composite_lookup_walk, writeback_layer_indices]
  | cons l pre ih =>
    have hl := hpre l (List.mem_cons_self _ _)
    have hpre' : ∀ l' ∈ pre, ∀ x, l' ≠ LookupRes.found x :=
      fun l' h => hpre l' (List.mem_cons_of_mem _ h)
    rcases l with x | _ | _
    · exact absurd rfl (hl x)
    · rw [List.cons_append, composite_lookup_walk, ih (idx + 1) wbs hpre']
      rw [writeback_layer_indices]
    · rw [List.cons_append, composite_lookup_walk,
        ih (idx + 1) (wbs ++ [idx]) hpre']
      rw [writeback_layer_indices]
      rw [List.append_assoc]
      rfl

/-- Claim C9: in the composite component-descriptor lookup, a hit at the layer
right after the hit-free prefix `pre` returns that descriptor and causes
exactly one write-back invocation — carrying the found descriptor — on every
preceding layer that returned a WriteBack, and no write-back on any other
layer (missing-without-WriteBack layers, the hit layer, and the layers after
it included). -/
theorem c9_composite_writeback (pre : List LookupRes) (d : Nat)
    (rest : List LookupRes)
    (hpre : ∀ l ∈ pre, ∀ x, l ≠ LookupRes.found x) :
    composite_lookup (pre ++ LookupRes.found d :: rest) =
      (some d, (writeback_layer_indices pre 0).map (fun i => (i, d))) ∧
    ∀ j : Nat,
      (((writeback_layer_indices pre 0).map (fun i => (i, d))).map
          Prod.fst).count j =
        if pre.get? j = some LookupRes.missWithWriteBack then 1 else 0 := by
  constructor
  · rw [composite_lookup, composite_lookup_walk_hit pre d rest 0 [] hpre]
    rfl
  · intro j
    rw [List.map_map]
    rw [show (Prod.fst ∘ fun i : Nat => (i, d)) = id from rfl, List.map_id]
    have := writeback_layer_indices_count pre 0 j
    simpa using this

/-- Witness for `c9_composite_writeback`: layers
[miss+WriteBack, miss, miss+WriteBack, hit 7, miss+WriteBack] — the hit
invokes exactly the write-backs of layers 0 and 2 with descriptor 7,
and the layer after the hit is not written back. -/
theorem c9_witness :
    composite_lookup
        [LookupRes.missWithWriteBack, LookupRes.miss,
          LookupRes.missWithWriteBack, LookupRes.found 7,
          LookupRes.missWithWriteBack] = (some 7, [(0, 7), (2, 7)]) ∧
    ([(0, 7), (2, 7)].map Prod.fst).count 1 = 0 := by
  have h := c9_composite_writeback
    [LookupRes.missWithWriteBack, LookupRes.miss,
      LookupRes.missWithWriteBack] 7 [LookupRes.missWithWriteBack]
    (by
      intro l hl x
      fin_cases hl <;> exact fun hh => LookupRes.noConfusion hh)
  exact ⟨h.1, h.2 1⟩

end Cnudie

end CcUtils
